import Mathlib

/-!
Verification of the real-time telemetry session layer of the corso-portal
repository, as embedded from `src/hooks/useWebSocket.ts`, the agent-status
consumer (`useAgentStatus`) and the usage consumer (`useRealTimeUsage`).

Modelling conventions:
* React state updates (`setConnectionState` etc.) are modelled as taking
  effect immediately inside an event handler; each handler is one atomic
  transition on the whole manager state.
* The socket.io transport is modelled by a `transmitted` log: `emit` appends
  the envelope to the log.  `emit` is modelled as never throwing, so the
  `catch` branches of `sendMessage`/`processMessageQueue` (re-queue on a
  throwing emit) are unreachable in the model.
* Envelope `id` and `timestamp` fields are generated from the wall clock in
  the source (`generateMessageId`, `new Date()`); no claim depends on them,
  so the envelope model keeps only `type` and `data`.
* JavaScript numbers are modelled as exact rationals (`ℚ`).
-/

/-- The closed `MessageType` vocabulary of `useWebSocket.ts`. -/
inductive MessageType where
  | auth | subscribe | unsubscribe | ping | get_usage | get_agent_status
  | auth_result | pong | usage_update | agent_status | quota_warning
  | license_change | activity_feed | layer_routing | alert | error
deriving DecidableEq, Repr

/-- The `SubscriptionType` vocabulary of `useWebSocket.ts`. -/
inductive SubscriptionType where
  | usage_updates | agent_status | quota_warnings | license_changes
  | activity_feed | layer_routing | alerts
deriving DecidableEq, Repr

/-- Payload (`data` field) of an outbound envelope; only the shapes the
manager itself constructs are distinguished. -/
inductive MsgData where
  | noData
  | authPayload (apiKey : String) (userId : Option String)
  | subsPayload (subs : List SubscriptionType)
deriving DecidableEq, Repr

/-- Outbound envelope (`WebSocketMessage` in the source, with the
clock-generated `id`/`timestamp` fields abstracted away). -/
structure WebSocketMessage where
  type : MessageType
  data : MsgData
deriving DecidableEq, Repr

/-- Identity payload recorded from a successful `auth_result`
(`userInfo` in `ConnectionState`). -/
structure UserInfo where
  userId : Option String
  role : Option String
  tier : Option String
  permissions : Option (List String)
deriving DecidableEq, Repr

/-- The reactive `ConnectionState` of `useWebSocket.ts` (line 23), with
`lastPong` as an abstract clock value. -/
structure ConnectionState where
  connected : Bool
  authenticated : Bool
  connecting : Bool
  error : Option String
  lastPong : Option Nat
  retryCount : Nat
  userInfo : Option UserInfo
deriving DecidableEq, Repr

/-- The initial `ConnectionState` (useState initialiser, line 77, and the
reset value written by `disconnect`, line 355). -/
def initConnectionState : ConnectionState :=
  { connected := false, authenticated := false, connecting := false
    error := Option.none, lastPong := Option.none, retryCount := 0
    userInfo := Option.none }

/-- Whole manager state: the reactive `ConnectionState` plus the refs of
`useWebSocket` (`socketRef`, `reconnectTimeoutRef`, `pingIntervalRef`,
`messageQueueRef`, `pendingSubscriptionsRef`) and the wire log. -/
structure ManagerState where
  conn : ConnectionState
  socketPresent : Bool
  reconnectTimer : Bool
  pingTimer : Bool
  messageQueue : List WebSocketMessage
  pendingSubscriptions : List SubscriptionType
  transmitted : List WebSocketMessage
deriving DecidableEq, Repr

/-- Manager state at construction: empty queue, no socket, no timers,
initial pending subscriptions seeded from the options (line 91). -/
def initManagerState (initialSubs : List SubscriptionType) : ManagerState :=
  { conn := initConnectionState, socketPresent := false
    reconnectTimer := false, pingTimer := false
    messageQueue := [], pendingSubscriptions := initialSubs
    transmitted := [] }

/-- The `auth` envelope built by `authenticate` (line 141). -/
def mkAuthMsg (apiKey : String) (userId : Option String) : WebSocketMessage :=
  { type := MessageType.auth, data := MsgData.authPayload apiKey userId }

/-- The `subscribe` envelope built by `subscribe` (line 151). -/
def mkSubscribeMsg (subs : List SubscriptionType) : WebSocketMessage :=
  { type := MessageType.subscribe, data := MsgData.subsPayload subs }

/-- The `unsubscribe` envelope built by `unsubscribe` (line 162). -/
def mkUnsubscribeMsg (subs : List SubscriptionType) : WebSocketMessage :=
  { type := MessageType.unsubscribe, data := MsgData.subsPayload subs }

/-- The `get_usage` envelope (line 170). -/
def getUsageMsg : WebSocketMessage :=
  { type := MessageType.get_usage, data := MsgData.noData }

/-- `sendMessage` (useWebSocket.ts line 99): emit immediately when a socket
exists and the transport is connected, otherwise push onto
`messageQueueRef`. -/
def sendMessage (m : WebSocketMessage) (s : ManagerState) : ManagerState :=
  if s.socketPresent ∧ s.conn.connected then
    { s with transmitted := s.transmitted ++ [m] }
  else
    { s with messageQueue := s.messageQueue ++ [m] }

/-- `processMessageQueue` (line 123): when a socket exists, the transport is
connected and the queue is non-empty, emit every queued envelope in order
and clear the queue. -/
def processMessageQueue (s : ManagerState) : ManagerState :=
  if s.socketPresent ∧ s.conn.connected ∧ s.messageQueue.length > 0 then
    { s with transmitted := s.transmitted ++ s.messageQueue, messageQueue := [] }
  else s

/-- `authenticate` (line 141): send an `auth` envelope through `sendMessage`. -/
def authenticate (apiKey : String) (userId : Option String) (s : ManagerState) : ManagerState :=
  sendMessage (mkAuthMsg apiKey userId) s

/-- Insertion-ordered deduplication, the semantics of iterating a JS `Set`
built from a list (first occurrence kept, order preserved). -/
def insertionDedup : List SubscriptionType → List SubscriptionType
  | [] => []
  | x :: xs => x :: (insertionDedup xs).filter (fun y => y ≠ x)

/-- `[...new Set([...pending, ...subs])]` (line 156). -/
def jsSetUnion (pending subs : List SubscriptionType) : List SubscriptionType :=
  insertionDedup (pending ++ subs)

/-- `subscribe` (line 149): if authenticated, send a `subscribe` envelope
for the given topics; otherwise merge them (deduplicated) into
`pendingSubscriptionsRef`. -/
def subscribe (subs : List SubscriptionType) (s : ManagerState) : ManagerState :=
  if s.conn.authenticated then
    sendMessage (mkSubscribeMsg subs) s
  else
    { s with pendingSubscriptions := jsSetUnion s.pendingSubscriptions subs }

/-- `unsubscribe` (line 161): always send an `unsubscribe` envelope through
`sendMessage`. -/
def unsubscribe (subs : List SubscriptionType) (s : ManagerState) : ManagerState :=
  sendMessage (mkUnsubscribeMsg subs) s

/-- The body of `connect()` up to installing the event handlers (line 182):
no-op when an already-connected socket exists, otherwise mark `connecting`,
clear the error and create the socket. -/
def startConnect (s : ManagerState) : ManagerState :=
  if s.socketPresent ∧ s.conn.connected then s
  else
    { s with conn := { s.conn with connecting := true, error := Option.none }
             socketPresent := true }

/-- The `socket.on('connect')` handler (line 200): mark connected, reset the
retry count, cancel the reconnect timer, start the ping timer (when the
configured ping interval is positive), send the `auth` envelope, then drain
the message queue.  `pingOn` stands for `opts.pingInterval > 0`. -/
def onConnect (apiKey : String) (userId : Option String) (pingOn : Bool)
    (s : ManagerState) : ManagerState :=
  let s1 : ManagerState :=
    { s with conn := { s.conn with connected := true, connecting := false
                                   error := Option.none, retryCount := 0 }
             reconnectTimer := false, pingTimer := pingOn }
  processMessageQueue (authenticate apiKey userId s1)

/-- Backoff delay computed by the `socket.on('disconnect')` handler
(line 251): `Math.min(reconnectInterval * 2 ** retryCount, 30000)`. -/
def backoffDelay (baseInterval k : Nat) : Nat :=
  min (baseInterval * 2 ^ k) 30000

/-- The manual-disconnect reason string socket.io reports after
`socket.disconnect()`. -/
def manualReason : String := "io client disconnect"

/-- The `socket.on('disconnect')` handler (line 232): clear the connected /
authenticated flags and the ping timer; when the reason is not the manual
one and the retry count is below `maxReconnectAttempts`, arm the reconnect
timer and return the scheduled backoff delay (`none` when no reconnect is
scheduled). -/
def onDisconnectEvent (reason : String) (baseInterval maxAttempts : Nat)
    (s : ManagerState) : ManagerState × Option Nat :=
  let s1 : ManagerState :=
    { s with conn := { s.conn with connected := false, authenticated := false
                                   connecting := false }
             pingTimer := false }
  if reason ≠ manualReason ∧ s.conn.retryCount < maxAttempts then
    ({ s1 with reconnectTimer := true },
     Option.some (backoffDelay baseInterval s.conn.retryCount))
  else (s1, Option.none)

/-- Firing of the armed reconnect timer (line 254): bump the retry count;
the subsequent `connect()` call is a separate step. -/
def fireReconnectTimer (s : ManagerState) : ManagerState :=
  { s with conn := { s.conn with retryCount := s.conn.retryCount + 1 }
           reconnectTimer := false }

/-- The `auth_result` branch of the message handler (line 281): on success,
set `authenticated`, record the identity payload, and flush pending
subscriptions through `subscribe`; on failure, clear `authenticated` and
record the error (`authData?.error || 'Authentication failed'`). -/
def onAuthResult (success : Bool) (authError : Option String) (ui : UserInfo)
    (s : ManagerState) : ManagerState :=
  if success then
    let s1 : ManagerState :=
      { s with conn := { s.conn with authenticated := true, userInfo := Option.some ui } }
    if s1.pendingSubscriptions.isEmpty then s1
    else { subscribe s1.pendingSubscriptions s1 with pendingSubscriptions := [] }
  else
    { s with conn := { s.conn with authenticated := false
                                   error := Option.some (authError.getD "Authentication failed") } }

/-- `disconnect` (line 336): cancel the reconnect and ping timers, drop the
socket, and reset `ConnectionState` to its initial value.  Note the source
leaves `messageQueueRef` and `pendingSubscriptionsRef` untouched. -/
def disconnect (s : ManagerState) : ManagerState :=
  { s with reconnectTimer := false, pingTimer := false
           socketPresent := false, conn := initConnectionState }

/-! ## Fleet status consumer (`useAgentStatus`) -/

/-- Agent operational state (the `status` union of `AgentStatus`). -/
inductive AgentState where
  | active | inactive | error | maintenance
deriving DecidableEq, Repr

/-- `AgentStatus` (useAgentStatus, line 5).  The untyped `metrics` record is
omitted: no operation under verification reads it. -/
structure AgentStatus where
  name : String
  port : Nat
  status : AgentState
  last_seen : String
  response_time_ms : ℚ
  active_calls : ℚ
  total_calls : ℚ
  error_rate : ℚ
  capabilities : List String
  biblical_role : String
deriving DecidableEq, Repr

/-- Alert kind (the `type` union of `AgentAlert`). -/
inductive AlertKind where
  | error | warning | maintenance
deriving DecidableEq, Repr

/-- `AgentAlert` (line 87); `timestamp` is the `Date.now()` clock in
milliseconds. -/
structure AgentAlert where
  id : String
  agentName : String
  type : AlertKind
  message : String
  timestamp : Nat
  acknowledged : Bool
  biblicalComfort : Option String
deriving DecidableEq, Repr

/-- The configurable `alertThresholds` (line 68 / defaults at line 227). -/
structure AlertThresholds where
  responseTime : ℚ
  errorRate : ℚ
  healthScore : ℚ
deriving DecidableEq, Repr

/-- Default thresholds (line 227): 1000 ms, 5 % error rate, health 80. -/
def defaultThresholds : AlertThresholds :=
  { responseTime := 1000, errorRate := 1/20, healthScore := 80 }

/-- `generateAlert` (line 205): the alert id is
`alert_<agentName>_<Date.now()>`, the alert starts unacknowledged. -/
def generateAlert (agent : AgentStatus) (kind : AlertKind) (now : Nat) : AgentAlert :=
  { id := "alert_" ++ agent.name ++ "_" ++ toString now
    agentName := agent.name
    type := kind
    message :=
      if kind = AlertKind.error then
        "Agent " ++ agent.name ++ " is experiencing difficulties"
      else
        "Agent " ++ agent.name ++ " requires attention"
    timestamp := now
    acknowledged := false
    biblicalComfort :=
      if kind = AlertKind.error then
        Option.some "Cast all your anxiety on him because he cares for you. - 1 Peter 5:7"
      else
        Option.some "The Lord your God is with you, the Mighty Warrior who saves. - Zephaniah 3:17" }

/-- The per-agent body of `checkAgentHealth` (line 233): an `error`-state
agent yields an error alert; an agent over the response-time or error-rate
threshold yields a warning alert; otherwise nothing. -/
def agentAlertFor (thr : AlertThresholds) (now : Nat) (agent : AgentStatus) :
    Option AgentAlert :=
  if agent.status = AgentState.error then
    Option.some (generateAlert agent AlertKind.error now)
  else if agent.response_time_ms > thr.responseTime ∨ agent.error_rate > thr.errorRate then
    Option.some (generateAlert agent AlertKind.warning now)
  else Option.none

/-- `checkAgentHealth` (line 225): collect the per-agent alerts over the
agent map (`Object.values` iteration order modelled by the list order). -/
def checkAgentHealth (thr : AlertThresholds) (agents : List AgentStatus)
    (now : Nat) : List AgentAlert :=
  agents.filterMap (agentAlertFor thr now)

/-- The alert-list update `checkAgentHealth` performs (line 244): append the
new alerts unconditionally (the source never consults the existing list). -/
def updateAlertsOnStatus (thr : AlertThresholds) (agents : List AgentStatus)
    (now : Nat) (alerts : List AgentAlert) : List AgentAlert :=
  let newAlerts := checkAgentHealth thr agents now
  if newAlerts.length > 0 then alerts ++ newAlerts else alerts

/-- `acknowledgeAlert` (line 326). -/
def acknowledgeAlert (alertId : String) (alerts : List AgentAlert) : List AgentAlert :=
  alerts.map (fun a => if a.id = alertId then { a with acknowledged := true } else a)

/-- `CollectiveMetrics` (line 109); `loadDistribution` (a record keyed by
agent name) is modelled as an association list in iteration order. -/
structure CollectiveMetrics where
  totalAgents : Nat
  activeAgents : Nat
  averageResponseTime : ℚ
  totalCalls : ℚ
  successRate : ℚ
  uptime : ℚ
  loadDistribution : List (String × ℚ)
deriving DecidableEq, Repr

/-- `getCollectiveMetrics` (line 343): averages guarded by `length > 0`,
success rate guarded by `totalCalls > 0` (returning 100 on an empty total),
uptime proxied by the health score. -/
def getCollectiveMetrics (agents : List AgentStatus) (healthScore : ℚ) :
    CollectiveMetrics :=
  let activeAgents := agents.filter (fun a => a.status = AgentState.active)
  let totalCalls := (agents.map (fun a => a.total_calls)).sum
  let averageResponseTime :=
    if agents.length > 0 then
      (agents.map (fun a => a.response_time_ms)).sum / (agents.length : ℚ)
    else 0
  let successfulCalls :=
    (agents.map (fun a => a.total_calls * (1 - a.error_rate))).sum
  let successRate :=
    if totalCalls > 0 then successfulCalls / totalCalls * 100 else 100
  { totalAgents := agents.length
    activeAgents := activeAgents.length
    averageResponseTime := averageResponseTime
    totalCalls := totalCalls
    successRate := successRate
    uptime := healthScore
    loadDistribution := agents.map (fun a => (a.name, a.active_calls)) }

/-! ## Usage consumer (`useRealTimeUsage`) -/

/-- `UsageCallRecord` (useRealTimeUsage, line 19). -/
structure UsageCallRecord where
  timestamp : String
  agent : String
  layer : ℚ
  duration_ms : ℚ
  success : Bool
  error_message : Option String
deriving DecidableEq, Repr

/-- `BiblicalUsageTheme` (line 28); `blessing` and `warning` are optional. -/
structure BiblicalUsageTheme where
  verse : String
  message : String
  blessing : Option String
  warning : Option String
  stewardship : String
deriving DecidableEq, Repr

/-- `UsageUpdateMessage` (line 4): the usage snapshot.  The
`agent_breakdown` / `layer_breakdown` records are association lists in
iteration order. -/
structure UsageUpdateMessage where
  user_id : String
  monthly_usage : ℚ
  daily_usage : ℚ
  monthly_limit : ℚ
  daily_limit : ℚ
  usage_percentage : ℚ
  last_call_time : String
  agent_breakdown : List (String × ℚ)
  layer_breakdown : List (String × ℚ)
  recent_calls : List UsageCallRecord
  tier : String
  biblical_theme : BiblicalUsageTheme
deriving DecidableEq, Repr

/-- `QuotaWarningMessage` (line 36). -/
structure QuotaWarningMessage where
  user_id : String
  warning_type : String
  current_usage : ℚ
  limit : ℚ
  percentage_used : ℚ
  time_remaining : String
  recommended_action : String
deriving DecidableEq, Repr

/-- The `quota_warning` branch of the message handler (line 496): append the
warning to the list unconditionally. -/
def addQuotaWarning (w : QuotaWarningMessage) (ws : List QuotaWarningMessage) :
    List QuotaWarningMessage :=
  ws ++ [w]

/-- The `trend` union of `UsageAnalytics`. -/
inductive Trend where
  | increasing | decreasing | stable
deriving DecidableEq, Repr

/-- The trend computation of `calculateAnalytics` (line 421): split the
last-24h call window at its midpoint (`Math.floor(length / 2)`), count each
half, and compare with the 1.1 / 0.9 factors.  The 24-hour timestamp filter
that produces the input window happens upstream and is time-dependent, so
the window itself is the input here. -/
def calculateTrend (last24h : List UsageCallRecord) : Trend :=
  let halfPoint := last24h.length / 2
  let firstHalf := (last24h.take halfPoint).length
  let secondHalf := (last24h.drop halfPoint).length
  if (secondHalf : ℚ) > (firstHalf : ℚ) * (1.1 : ℚ) then Trend.increasing
  else if (secondHalf : ℚ) < (firstHalf : ℚ) * (0.9 : ℚ) then Trend.decreasing
  else Trend.stable

/-- The spec's description of the trend rule, stated over the two half
counts with exact integer arithmetic: more than 10 % above the first half
is `increasing`, more than 10 % below is `decreasing`, else `stable`. -/
def trendOfCounts (firstCount secondCount : Nat) : Trend :=
  if 10 * secondCount > 11 * firstCount then Trend.increasing
  else if 10 * secondCount < 9 * firstCount then Trend.decreasing
  else Trend.stable

/-- JSON value model: `JSON.stringify` is modelled as producing the JSON
value a string denotes, and parsing as the inverse reading of that value. -/
inductive Json where
  | null
  | bool (b : Bool)
  | num (q : ℚ)
  | str (s : String)
  | arr (elems : List Json)
  | obj (fields : List (String × Json))

/-- Encoding of one `UsageCallRecord` under `JSON.stringify`: an
`undefined` optional field is omitted from the output object. -/
def encodeCall (c : UsageCallRecord) : Json :=
  Json.obj
    ([("timestamp", Json.str c.timestamp),
      ("agent", Json.str c.agent),
      ("layer", Json.num c.layer),
      ("duration_ms", Json.num c.duration_ms),
      ("success", Json.bool c.success)] ++
     (match c.error_message with
      | Option.none => []
      | Option.some e => [("error_message", Json.str e)]))

/-- Reading one call record back from its JSON value. -/
def decodeCall : Json → Option UsageCallRecord
  | Json.obj (("timestamp", Json.str ts) :: ("agent", Json.str ag) ::
      ("layer", Json.num ly) :: ("duration_ms", Json.num dm) ::
      ("success", Json.bool sc) :: rest) =>
    match rest with
    | [] => Option.some ⟨ts, ag, ly, dm, sc, Option.none⟩
    | [("error_message", Json.str e)] => Option.some ⟨ts, ag, ly, dm, sc, Option.some e⟩
    | _ => Option.none
  | _ => Option.none

/-- Encoding of a numeric record (`Record<string, number>`). -/
def encodePairs (l : List (String × ℚ)) : List (String × Json) :=
  l.map (fun p => (p.1, Json.num p.2))

/-- Reading a numeric record back. -/
def decodePairs : List (String × Json) → Option (List (String × ℚ))
  | [] => Option.some []
  | (k, Json.num q) :: rest =>
    (decodePairs rest).map (fun l => (k, q) :: l)
  | _ => Option.none

/-- Reading a homogeneous array back with a per-element reader. -/
def decodeListWith (f : Json → Option UsageCallRecord) :
    List Json → Option (List UsageCallRecord)
  | [] => Option.some []
  | x :: xs =>
    match f x, decodeListWith f xs with
    | Option.some a, Option.some as => Option.some (a :: as)
    | _, _ => Option.none

/-- Encoding of `BiblicalUsageTheme`; the optional `blessing` / `warning`
fields are omitted when absent. -/
def encodeTheme (t : BiblicalUsageTheme) : Json :=
  Json.obj
    ([("verse", Json.str t.verse), ("message", Json.str t.message)] ++
     (match t.blessing with
      | Option.none => []
      | Option.some b => [("blessing", Json.str b)]) ++
     (match t.warning with
      | Option.none => []
      | Option.some w => [("warning", Json.str w)]) ++
     [("stewardship", Json.str t.stewardship)])

/-- Reading a `BiblicalUsageTheme` back. -/
def decodeTheme : Json → Option BiblicalUsageTheme
  | Json.obj (("verse", Json.str v) :: ("message", Json.str m) :: rest) =>
    match rest with
    | [("blessing", Json.str b), ("warning", Json.str w), ("stewardship", Json.str s)] =>
      Option.some ⟨v, m, Option.some b, Option.some w, s⟩
    | [("blessing", Json.str b), ("stewardship", Json.str s)] =>
      Option.some ⟨v, m, Option.some b, Option.none, s⟩
    | [("warning", Json.str w), ("stewardship", Json.str s)] =>
      Option.some ⟨v, m, Option.none, Option.some w, s⟩
    | [("stewardship", Json.str s)] =>
      Option.some ⟨v, m, Option.none, Option.none, s⟩
    | _ => Option.none
  | _ => Option.none

/-- Encoding of the whole usage snapshot, field for field in declaration
order — the JSON value of `JSON.stringify(state.usage, null, 2)`. -/
def encodeUsage (u : UsageUpdateMessage) : Json :=
  Json.obj
    [("user_id", Json.str u.user_id),
     ("monthly_usage", Json.num u.monthly_usage),
     ("daily_usage", Json.num u.daily_usage),
     ("monthly_limit", Json.num u.monthly_limit),
     ("daily_limit", Json.num u.daily_limit),
     ("usage_percentage", Json.num u.usage_percentage),
     ("last_call_time", Json.str u.last_call_time),
     ("agent_breakdown", Json.obj (encodePairs u.agent_breakdown)),
     ("layer_breakdown", Json.obj (encodePairs u.layer_breakdown)),
     ("recent_calls", Json.arr (u.recent_calls.map encodeCall)),
     ("tier", Json.str u.tier),
     ("biblical_theme", encodeTheme u.biblical_theme)]

/-- String reading of one JSON value. -/
def asStrJ : Json → Option String
  | Json.str s => Option.some s
  | _ => Option.none

/-- Number reading of one JSON value. -/
def asNumJ : Json → Option ℚ
  | Json.num q => Option.some q
  | _ => Option.none

/-- Object reading of one JSON value. -/
def asObjJ : Json → Option (List (String × Json))
  | Json.obj l => Option.some l
  | _ => Option.none

/-- Array reading of one JSON value. -/
def asArrJ : Json → Option (List Json)
  | Json.arr l => Option.some l
  | _ => Option.none

/-- Popping the next object field under an expected key, returning its
value and the remaining fields. -/
def popField (k : String) (l : List (String × Json)) :
    Option (Json × List (String × Json)) :=
  match l with
  | [] => Option.none
  | p :: rest => if p.1 = k then Option.some (p.2, rest) else Option.none

/-- Reading the whole usage snapshot back (the parse of the exported
string): the twelve fields in declaration order, nothing left over. -/
def decodeUsage (j : Json) : Option UsageUpdateMessage :=
  match asObjJ j with
  | Option.none => Option.none
  | Option.some l =>
  match popField "user_id" l with
  | Option.none => Option.none
  | Option.some q1 =>
  match asStrJ q1.1 with
  | Option.none => Option.none
  | Option.some uid =>
  match popField "monthly_usage" q1.2 with
  | Option.none => Option.none
  | Option.some q2 =>
  match asNumJ q2.1 with
  | Option.none => Option.none
  | Option.some mu =>
  match popField "daily_usage" q2.2 with
  | Option.none => Option.none
  | Option.some q3 =>
  match asNumJ q3.1 with
  | Option.none => Option.none
  | Option.some du =>
  match popField "monthly_limit" q3.2 with
  | Option.none => Option.none
  | Option.some q4 =>
  match asNumJ q4.1 with
  | Option.none => Option.none
  | Option.some ml =>
  match popField "daily_limit" q4.2 with
  | Option.none => Option.none
  | Option.some q5 =>
  match asNumJ q5.1 with
  | Option.none => Option.none
  | Option.some dl =>
  match popField "usage_percentage" q5.2 with
  | Option.none => Option.none
  | Option.some q6 =>
  match asNumJ q6.1 with
  | Option.none => Option.none
  | Option.some up =>
  match popField "last_call_time" q6.2 with
  | Option.none => Option.none
  | Option.some q7 =>
  match asStrJ q7.1 with
  | Option.none => Option.none
  | Option.some lct =>
  match popField "agent_breakdown" q7.2 with
  | Option.none => Option.none
  | Option.some q8 =>
  match asObjJ q8.1 with
  | Option.none => Option.none
  | Option.some abj =>
  match decodePairs abj with
  | Option.none => Option.none
  | Option.some abv =>
  match popField "layer_breakdown" q8.2 with
  | Option.none => Option.none
  | Option.some q9 =>
  match asObjJ q9.1 with
  | Option.none => Option.none
  | Option.some lbj =>
  match decodePairs lbj with
  | Option.none => Option.none
  | Option.some lbv =>
  match popField "recent_calls" q9.2 with
  | Option.none => Option.none
  | Option.some q10 =>
  match asArrJ q10.1 with
  | Option.none => Option.none
  | Option.some rcj =>
  match decodeListWith decodeCall rcj with
  | Option.none => Option.none
  | Option.some rcv =>
  match popField "tier" q10.2 with
  | Option.none => Option.none
  | Option.some q11 =>
  match asStrJ q11.1 with
  | Option.none => Option.none
  | Option.some t =>
  match popField "biblical_theme" q11.2 with
  | Option.none => Option.none
  | Option.some q12 =>
  match decodeTheme q12.1 with
  | Option.none => Option.none
  | Option.some thv =>
  if q12.2.isEmpty then
    Option.some ⟨uid, mu, du, ml, dl, up, lct, abv, lbv, rcv, t, thv⟩
  else Option.none

/-- The slice of `RealTimeUsageState` (line 75) the export and quota
operations read. -/
structure RealTimeUsageState where
  usage : Option UsageUpdateMessage
  quotaWarnings : List QuotaWarningMessage
  analytics : Option Trend
  error : Option String
deriving Repr

/-- The `format = 'json'` branch of `exportUsageData` (line 566):
`JSON.stringify(state.usage, null, 2)` modelled at the JSON-value level;
with no snapshot the source returns the empty string. -/
def exportUsageDataJson (st : RealTimeUsageState) : Json :=
  match st.usage with
  | Option.none => Json.str ""
  | Option.some u => encodeUsage u

/-! ## Concrete states used by the theorems below -/

/-- A reachable post-connect, pre-authentication manager state: fresh
manager, `connect()` called, transport `connect` event fired, no
`auth_result` yet. -/
def postConnectState : ManagerState :=
  onConnect "key" Option.none true (startConnect (initManagerState []))

/-- Fresh manager (seeded with the default `alerts` subscription) after
`connect()` was called but before the transport connected. -/
def preConnectState : ManagerState :=
  startConnect (initManagerState [SubscriptionType.alerts])

/-- `preConnectState` after one `send` issued while still disconnected. -/
def queuedState : ManagerState := sendMessage getUsageMsg preConnectState

/-- `queuedState` after the transport `connect` event. -/
def connectedState : ManagerState := onConnect "key" Option.none true queuedState

/-- An identity payload as returned by a successful handshake. -/
def demoUserInfo : UserInfo :=
  { userId := Option.some "usr_001", role := Option.some "king"
    tier := Option.some "king", permissions := Option.none }

/-- A manager state with the given retry count, socket present. -/
def retryState (k : Nat) : ManagerState :=
  { initManagerState [] with
      conn := { initConnectionState with retryCount := k }
      socketPresent := true }

/-- A connected manager state with a queued envelope, a pending
subscription and both timers armed — input for `disconnect`. -/
def busyState : ManagerState :=
  { conn := { initConnectionState with connected := true }
    socketPresent := true, reconnectTimer := true, pingTimer := true
    messageQueue := [getUsageMsg]
    pendingSubscriptions := [SubscriptionType.alerts]
    transmitted := [] }

/-- A connected and authenticated manager state with empty wire log. -/
def authedState : ManagerState :=
  { conn := { initConnectionState with connected := true, authenticated := true }
    socketPresent := true, reconnectTimer := false, pingTimer := true
    messageQueue := [], pendingSubscriptions := [], transmitted := [] }

/-- Consumer A registers topic `alerts` while authenticated. -/
def subOnceState : ManagerState := subscribe [SubscriptionType.alerts] authedState

/-- Consumer B registers the same topic. -/
def subTwiceState : ManagerState := subscribe [SubscriptionType.alerts] subOnceState

/-- Consumer A deactivates: `unsubscribe` for the topic B still needs. -/
def unsubAfterTwoState : ManagerState := unsubscribe [SubscriptionType.alerts] subTwiceState

/-- An agent in `error` state, below every warning threshold otherwise. -/
def errAgent : AgentStatus :=
  { name := "3L1J4H", port := 3031, status := AgentState.error
    last_seen := "2024-09-29T12:00:00Z", response_time_ms := 120
    active_calls := 2, total_calls := 100, error_rate := 1/100
    capabilities := ["security"], biblical_role := "Security Guardian" }

/-- Alert list after processing a snapshot holding `errAgent` at time 1000. -/
def alertsAfterFirst : List AgentAlert :=
  updateAlertsOnStatus defaultThresholds [errAgent] 1000 []

/-- Alert list after re-processing the identical snapshot at the same
clock value. -/
def alertsAfterSecond : List AgentAlert :=
  updateAlertsOnStatus defaultThresholds [errAgent] 1000 alertsAfterFirst

/-- Alert list after re-processing the identical snapshot one second later. -/
def alertsAfterSecondLater : List AgentAlert :=
  updateAlertsOnStatus defaultThresholds [errAgent] 2000 alertsAfterFirst

/-- A concrete quota warning. -/
def demoQuotaWarning : QuotaWarningMessage :=
  { user_id := "usr_001", warning_type := "approaching", current_usage := 900
    limit := 1000, percentage_used := 90, time_remaining := "3 days"
    recommended_action := "upgrade tier" }

/-- A concrete usage theme with one optional field present, one absent. -/
def demoTheme : BiblicalUsageTheme :=
  { verse := "Proverbs 3:5", message := "Trust in the Lord"
    blessing := Option.none, warning := Option.some "Usage high"
    stewardship := "steward well" }

/-- A successful call record (no error message field). -/
def demoCall : UsageCallRecord :=
  { timestamp := "2024-09-29T12:00:00Z", agent := "K1NGxDAV1D", layer := 1
    duration_ms := 14, success := true, error_message := Option.none }

/-- A failed call record carrying an error message. -/
def demoFailedCall : UsageCallRecord :=
  { timestamp := "2024-09-29T12:01:00Z", agent := "3L1J4H", layer := 2
    duration_ms := 8, success := false, error_message := Option.some "timeout" }

/-- A concrete usage snapshot. -/
def demoUsage : UsageUpdateMessage :=
  { user_id := "usr_001", monthly_usage := 900, daily_usage := 30
    monthly_limit := 1000, daily_limit := 50, usage_percentage := 90
    last_call_time := "2024-09-29T12:01:00Z"
    agent_breakdown := [("K1NGxDAV1D", 600), ("3L1J4H", 300)]
    layer_breakdown := [("1", 700), ("2", 200)]
    recent_calls := [demoCall, demoFailedCall]
    tier := "king", biblical_theme := demoTheme }

/-- A consumer state holding `demoUsage`. -/
def demoUsageState : RealTimeUsageState :=
  { usage := Option.some demoUsage, quotaWarnings := [], analytics := Option.none
    error := Option.none }

/-- A consumer state with the same snapshot but different other fields. -/
def demoUsageStateNoisy : RealTimeUsageState :=
  { usage := Option.some demoUsage, quotaWarnings := [demoQuotaWarning]
    analytics := Option.some Trend.stable, error := Option.some "server error" }

/-! ## Helper lemmas -/

theorem decodeCall_encodeCall (c : UsageCallRecord) :
    decodeCall (encodeCall c) = Option.some c := by
  cases c with
  | mk ts ag ly dm sc em => cases em <;> rfl

theorem decodePairs_encodePairs (l : List (String × ℚ)) :
    decodePairs (encodePairs l) = Option.some l := by
  induction l with
  | nil => rfl
  | cons p rest ih =>
    cases p with
    | mk k q => simp [encodePairs, decodePairs, ih] at ih ⊢

theorem decodeListWith_encodeCall (l : List UsageCallRecord) :
    decodeListWith decodeCall (l.map encodeCall) = Option.some l := by
  induction l with
  | nil => rfl
  | cons c rest ih => simp [decodeListWith, decodeCall_encodeCall, ih]

theorem decodeTheme_encodeTheme (t : BiblicalUsageTheme) :
    decodeTheme (encodeTheme t) = Option.some t := by
  cases t with
  | mk v m b w s => cases b <;> cases w <;> rfl

theorem decodeUsage_encodeUsage (u : UsageUpdateMessage) :
    decodeUsage (encodeUsage u) = Option.some u := by
  cases u with
  | mk uid mu du ml dl up lct ab lb rc t th =>
    simp [encodeUsage, decodeUsage, popField, asStrJ, asNumJ, asObjJ, asArrJ,
      Option.bind, decodePairs_encodePairs, decodeListWith_encodeCall,
      decodeTheme_encodeTheme]

theorem ratio_gt_iff (a b : Nat) :
    ((b : ℚ) > (a : ℚ) * (1.1 : ℚ)) ↔ 10 * b > 11 * a := by
  rw [gt_iff_lt, show (1.1 : ℚ) = 11 / 10 by norm_num, ← mul_div_assoc,
    div_lt_iff₀ (by norm_num : (0 : ℚ) < 10)]
  constructor
  · intro h
    have h2 : ((11 * a : Nat) : ℚ) < ((10 * b : Nat) : ℚ) := by push_cast; linarith
    exact_mod_cast h2
  · intro h
    have h2 : ((11 * a : Nat) : ℚ) < ((10 * b : Nat) : ℚ) := by exact_mod_cast h
    push_cast at h2; linarith

theorem ratio_lt_iff (a b : Nat) :
    ((b : ℚ) < (a : ℚ) * (0.9 : ℚ)) ↔ 10 * b < 9 * a := by
  rw [show (0.9 : ℚ) = 9 / 10 by norm_num, ← mul_div_assoc,
    lt_div_iff₀ (by norm_num : (0 : ℚ) < 10)]
  constructor
  · intro h
    have h2 : ((10 * b : Nat) : ℚ) < ((9 * a : Nat) : ℚ) := by push_cast; linarith
    exact_mod_cast h2
  · intro h
    have h2 : ((10 * b : Nat) : ℚ) < ((9 * a : Nat) : ℚ) := by exact_mod_cast h
    push_cast at h2; linarith

theorem trend_if_eq (a b : Nat) :
    (if (b : ℚ) > (a : ℚ) * (1.1 : ℚ) then Trend.increasing
     else if (b : ℚ) < (a : ℚ) * (0.9 : ℚ) then Trend.decreasing
     else Trend.stable) = trendOfCounts a b := by
  unfold trendOfCounts
  by_cases h1 : 10 * b > 11 * a
  · rw [if_pos ((ratio_gt_iff a b).mpr h1), if_pos h1]
  · rw [if_neg (fun hq => h1 ((ratio_gt_iff a b).mp hq)), if_neg h1]
    by_cases h2 : 10 * b < 9 * a
    · rw [if_pos ((ratio_lt_iff a b).mpr h2), if_pos h2]
    · rw [if_neg (fun hq => h2 ((ratio_lt_iff a b).mp hq)), if_neg h2]

/-! ## Claim theorems -/

/-- Claim C1, counterexample: in the reachable post-connect,
pre-authentication state (`authenticated = false`), `sendMessage` transmits
the envelope on the wire immediately and queues nothing — refuting that
pre-authentication sends are captured by the outbound queue and that
transmission happens only when `Authenticated`. -/
theorem sendMessage_preauth_transmits_counterexample :
    postConnectState.conn.authenticated = false ∧
    postConnectState.conn.connected = true ∧
    (sendMessage getUsageMsg postConnectState).transmitted
      = postConnectState.transmitted ++ [getUsageMsg] ∧
    (sendMessage getUsageMsg postConnectState).messageQueue
      = postConnectState.messageQueue := by
  refine ⟨rfl, rfl, ?_, rfl⟩
  rfl

/-- Claim C1 (amended): `sendMessage` gates on the transport, not on
authentication — the envelope is transmitted immediately exactly when a
socket exists and the transport is connected (even before authentication),
and appended to the outbound queue otherwise. -/
theorem sendMessage_gates_on_connected (s : ManagerState) (m : WebSocketMessage) :
    (s.socketPresent = true → s.conn.connected = true →
      (sendMessage m s).transmitted = s.transmitted ++ [m] ∧
      (sendMessage m s).messageQueue = s.messageQueue) ∧
    (¬(s.socketPresent = true ∧ s.conn.connected = true) →
      (sendMessage m s).messageQueue = s.messageQueue ++ [m] ∧
      (sendMessage m s).transmitted = s.transmitted) := by
  constructor
  · intro h1 h2
    simp [sendMessage, h1, h2]
  · intro h
    simp [sendMessage, h]

/-- Witness for `sendMessage_gates_on_connected`: the connected case at the
post-connect state, the disconnected case at a fresh manager. -/
theorem sendMessage_gates_on_connected_witness :
    ((sendMessage getUsageMsg postConnectState).transmitted
        = postConnectState.transmitted ++ [getUsageMsg] ∧
      (sendMessage getUsageMsg postConnectState).messageQueue
        = postConnectState.messageQueue) ∧
    ((sendMessage getUsageMsg (initManagerState [])).messageQueue
        = (initManagerState []).messageQueue ++ [getUsageMsg] ∧
      (sendMessage getUsageMsg (initManagerState [])).transmitted
        = (initManagerState []).transmitted) := by
  refine ⟨(sendMessage_gates_on_connected postConnectState getUsageMsg).1 rfl rfl,
    (sendMessage_gates_on_connected (initManagerState []) getUsageMsg).2 ?_⟩
  intro h
  exact absurd h.1 (by decide)

/-- Claim C2, counterexample: an envelope queued while disconnected is
drained and transmitted by the transport `connect` event itself, while
`authenticated` is still `false`; the subsequent successful `auth_result`
transmits only the pending-subscription flush and nothing from the queue —
refuting that the queued envelopes are transmitted upon reaching
`Authenticated`. -/
theorem queue_drained_before_auth_counterexample :
    queuedState.messageQueue = [getUsageMsg] ∧
    connectedState.conn.authenticated = false ∧
    connectedState.messageQueue = [] ∧
    connectedState.transmitted = [mkAuthMsg "key" Option.none, getUsageMsg] ∧
    (onAuthResult true Option.none demoUserInfo connectedState).transmitted
      = connectedState.transmitted ++ [mkSubscribeMsg [SubscriptionType.alerts]] := by
  refine ⟨rfl, rfl, rfl, rfl, ?_⟩
  rfl

/-- Claim C2 (amended): envelopes enqueued while not connected are
transmitted exactly once, in FIFO order, when the transport `connect` event
fires — right after the `auth` envelope and before any authentication
result — and the queue is empty from then on. -/
theorem connect_drains_queue_fifo (s : ManagerState) (apiKey : String)
    (userId : Option String) (pingOn : Bool) (h : s.socketPresent = true) :
    (onConnect apiKey userId pingOn s).transmitted
      = s.transmitted ++ [mkAuthMsg apiKey userId] ++ s.messageQueue ∧
    (onConnect apiKey userId pingOn s).messageQueue = [] := by
  cases hq : s.messageQueue with
  | nil => simp [onConnect, authenticate, sendMessage, processMessageQueue, h, hq]
  | cons a as => simp [onConnect, authenticate, sendMessage, processMessageQueue, h, hq]

/-- Witness for `connect_drains_queue_fifo` at the one-message queued
state. -/
theorem connect_drains_queue_fifo_witness :
    (onConnect "key" Option.none true queuedState).transmitted
      = queuedState.transmitted ++ [mkAuthMsg "key" Option.none] ++ queuedState.messageQueue ∧
    (onConnect "key" Option.none true queuedState).messageQueue = [] :=
  connect_drains_queue_fifo queuedState "key" Option.none true rfl

/-- Claim C3, counterexample: in the reachable post-connect state, a failed
`auth_result` leaves `connected = true` and the socket in place — the
manager does not transition to `Disconnected`. -/
theorem auth_failure_stays_connected_counterexample :
    connectedState.conn.connected = true ∧
    (onAuthResult false (Option.some "invalid key") demoUserInfo connectedState).conn.connected
      = true ∧
    (onAuthResult false (Option.some "invalid key") demoUserInfo connectedState).socketPresent
      = true := by
  refine ⟨rfl, ?_, ?_⟩ <;> rfl

/-- Claim C3 (amended): on `auth_result` with `success = false` the manager
records the error (falling back to a fixed message), clears the
`authenticated` flag, and changes nothing else: it stays connected with the
transport open, arms no reconnect timer, and sends no re-authentication —
a new attempt needs an explicit caller action. -/
theorem auth_failure_records_error_no_retry (s : ManagerState)
    (err : Option String) (ui : UserInfo) :
    (onAuthResult false err ui s).conn.authenticated = false ∧
    (onAuthResult false err ui s).conn.error
      = Option.some (err.getD "Authentication failed") ∧
    (onAuthResult false err ui s).conn.connected = s.conn.connected ∧
    (onAuthResult false err ui s).socketPresent = s.socketPresent ∧
    (onAuthResult false err ui s).reconnectTimer = s.reconnectTimer ∧
    (onAuthResult false err ui s).messageQueue = s.messageQueue ∧
    (onAuthResult false err ui s).transmitted = s.transmitted := by
  simp [onAuthResult]

/-- Claim C4: the reconnect delay scheduled at retry count `k` is
`min(baseInterval * 2 ^ k, 30000)`; the delay is non-decreasing in the
retry count and bounded by the 30000 ms cap; a non-manual disconnect with
retry count below `maxAttempts` schedules exactly that delay and arms the
timer, while once the retry count has reached `maxAttempts` no reconnect is
scheduled; the timer firing increments the retry count by one. -/
theorem backoff_policy (baseInterval maxAttempts k k' : Nat)
    (s : ManagerState) (reason : String) (hk : k ≤ k') :
    backoffDelay baseInterval k ≤ backoffDelay baseInterval k' ∧
    backoffDelay baseInterval k ≤ 30000 ∧
    (s.conn.retryCount < maxAttempts → reason ≠ manualReason →
      (onDisconnectEvent reason baseInterval maxAttempts s).2
        = Option.some (backoffDelay baseInterval s.conn.retryCount) ∧
      (onDisconnectEvent reason baseInterval maxAttempts s).1.reconnectTimer = true) ∧
    (maxAttempts ≤ s.conn.retryCount →
      (onDisconnectEvent reason baseInterval maxAttempts s).2 = Option.none) ∧
    (fireReconnectTimer s).conn.retryCount = s.conn.retryCount + 1 := by
  refine ⟨?_, ?_, ?_, ?_, rfl⟩
  · exact min_le_min
      (Nat.mul_le_mul_left baseInterval (Nat.pow_le_pow_right (by norm_num) hk))
      le_rfl
  · exact min_le_right _ _
  · intro h1 h2
    simp [onDisconnectEvent, h1, h2]
  · intro h1
    have h2 : ¬ s.conn.retryCount < maxAttempts := Nat.not_lt.mpr h1
    simp [onDisconnectEvent, h2]

/-- Witness for `backoff_policy`: base 5000 ms, retry counts 2 ≤ 3, cap 10
attempts, a transport-close reason, with scheduling checked at retry counts
2 and 10. -/
theorem backoff_policy_witness :
    backoffDelay 5000 2 ≤ backoffDelay 5000 3 ∧
    backoffDelay 5000 2 ≤ 30000 ∧
    (onDisconnectEvent "transport close" 5000 10 (retryState 2)).2
      = Option.some (backoffDelay 5000 (retryState 2).conn.retryCount) ∧
    (onDisconnectEvent "transport close" 5000 10 (retryState 10)).2 = Option.none := by
  have h1 := backoff_policy 5000 10 2 3 (retryState 2) "transport close" (by norm_num)
  have h2 := backoff_policy 5000 10 2 3 (retryState 10) "transport close" (by norm_num)
  exact ⟨h1.1, h1.2.1, (h1.2.2.1 (by decide) (by decide)).1, h2.2.2.2.1 (by decide)⟩

/-- Claim C5, counterexample: `disconnect` on a state with a queued
envelope leaves the outbound queue (and the pending subscriptions)
untouched — refuting that `disconnect()` clears the OutboundQueue. -/
theorem disconnect_keeps_queue_counterexample :
    busyState.messageQueue = [getUsageMsg] ∧
    (disconnect busyState).messageQueue = [getUsageMsg] ∧
    (disconnect busyState).pendingSubscriptions = [SubscriptionType.alerts] := by
  refine ⟨rfl, ?_, ?_⟩ <;> rfl

/-- Claim C5 (amended): `disconnect()` cancels the reconnect and keepalive
timers, closes the transport, and resets `ConnectionState` to its initial
value (no error, no identity payload, retry count zero) — but the outbound
queue and the pending subscriptions are left untouched — and the manual
disconnect reason it produces schedules no automatic reconnect. -/
theorem disconnect_resets_state (s : ManagerState) (baseInterval maxAttempts : Nat) :
    (disconnect s).reconnectTimer = false ∧
    (disconnect s).pingTimer = false ∧
    (disconnect s).socketPresent = false ∧
    (disconnect s).conn = initConnectionState ∧
    (disconnect s).messageQueue = s.messageQueue ∧
    (disconnect s).pendingSubscriptions = s.pendingSubscriptions ∧
    (onDisconnectEvent manualReason baseInterval maxAttempts (disconnect s)).2
      = Option.none := by
  refine ⟨rfl, rfl, rfl, rfl, rfl, rfl, ?_⟩
  simp [onDisconnectEvent]

/-- Claim C6, counterexample: with the manager authenticated, registering
topic `alerts` from two consumers sends two identical `subscribe`
envelopes (the already-active topic is re-sent), and one consumer
deactivating sends an `unsubscribe` envelope although the other consumer
still needs the topic — refuting reference-counted registration. -/
theorem no_refcount_counterexample :
    subTwiceState.transmitted
      = [mkSubscribeMsg [SubscriptionType.alerts],
         mkSubscribeMsg [SubscriptionType.alerts]] ∧
    unsubAfterTwoState.transmitted
      = [mkSubscribeMsg [SubscriptionType.alerts],
         mkSubscribeMsg [SubscriptionType.alerts],
         mkUnsubscribeMsg [SubscriptionType.alerts]] := by
  refine ⟨?_, ?_⟩ <;> rfl

/-- Claim C6 (amended): the hook keeps no per-consumer reference counts —
with a socket present and the transport connected, every `unsubscribe` call
immediately sends an `unsubscribe` envelope for its topics, and `subscribe`
while authenticated always sends a `subscribe` envelope even for topics
already subscribed; only while unauthenticated are topics merged
(deduplicated, insertion-ordered) into the pending set without wire
traffic. -/
theorem subscription_no_refcount (s : ManagerState) (subs : List SubscriptionType)
    (hs : s.socketPresent = true) (hc : s.conn.connected = true) :
    (unsubscribe subs s).transmitted = s.transmitted ++ [mkUnsubscribeMsg subs] ∧
    (s.conn.authenticated = true →
      (subscribe subs s).transmitted = s.transmitted ++ [mkSubscribeMsg subs]) ∧
    (s.conn.authenticated = false →
      (subscribe subs s).pendingSubscriptions = jsSetUnion s.pendingSubscriptions subs ∧
      (subscribe subs s).transmitted = s.transmitted) := by
  refine ⟨?_, ?_, ?_⟩
  · simp [unsubscribe, sendMessage, hs, hc]
  · intro ha
    simp [subscribe, sendMessage, hs, hc, ha]
  · intro ha
    simp [subscribe, ha]

/-- Witness for `subscription_no_refcount`: the authenticated case at
`authedState`, the unauthenticated case at the post-connect state. -/
theorem subscription_no_refcount_witness :
    ((unsubscribe [SubscriptionType.alerts] authedState).transmitted
        = authedState.transmitted ++ [mkUnsubscribeMsg [SubscriptionType.alerts]]) ∧
    ((subscribe [SubscriptionType.alerts] authedState).transmitted
        = authedState.transmitted ++ [mkSubscribeMsg [SubscriptionType.alerts]]) ∧
    ((subscribe [SubscriptionType.alerts] postConnectState).pendingSubscriptions
        = jsSetUnion postConnectState.pendingSubscriptions [SubscriptionType.alerts]) := by
  refine ⟨(subscription_no_refcount authedState [SubscriptionType.alerts] rfl rfl).1,
    (subscription_no_refcount authedState [SubscriptionType.alerts] rfl rfl).2.1 rfl,
    ((subscription_no_refcount postConnectState [SubscriptionType.alerts] rfl rfl).2.2 rfl).1⟩

/-- Claim C7, counterexample: processing the snapshot `[errAgent]` once
yields one unacknowledged alert; re-processing the identical snapshot
appends a second, duplicate alert (same id at the same clock value), and at
a later clock value the id differs — the id embeds the generation time, so
it is not deterministic per snapshot, and no deduplication happens. -/
theorem duplicate_alerts_counterexample :
    alertsAfterFirst = [generateAlert errAgent AlertKind.error 1000] ∧
    alertsAfterSecond
      = [generateAlert errAgent AlertKind.error 1000,
         generateAlert errAgent AlertKind.error 1000] ∧
    (generateAlert errAgent AlertKind.error 1000).acknowledged = false ∧
    alertsAfterSecondLater.length = 2 ∧
    (generateAlert errAgent AlertKind.error 1000).id
      ≠ (generateAlert errAgent AlertKind.error 2000).id := by
  refine ⟨rfl, rfl, rfl, rfl, ?_⟩
  decide

/-- Claim C7 (amended): alert generation performs no deduplication — every
processed `agent_status` snapshot appends the freshly generated alerts to
the existing list unconditionally, an `error`-state agent always
contributes a new unacknowledged alert whose id is
`alert_<name>_<current time>` (so re-processing an identical snapshot
duplicates it), and the `quota_warning` handler likewise appends every
warning unconditionally. -/
theorem alerts_appended_without_dedup (thr : AlertThresholds)
    (agents : List AgentStatus) (alerts : List AgentAlert) (now : Nat)
    (w : QuotaWarningMessage) (ws : List QuotaWarningMessage) (a : AgentStatus)
    (ha : a ∈ agents) (he : a.status = AgentState.error) :
    updateAlertsOnStatus thr agents now alerts
      = alerts ++ checkAgentHealth thr agents now ∧
    generateAlert a AlertKind.error now ∈ checkAgentHealth thr agents now ∧
    (generateAlert a AlertKind.error now).acknowledged = false ∧
    (generateAlert a AlertKind.error now).id
      = "alert_" ++ a.name ++ "_" ++ toString now ∧
    addQuotaWarning w (addQuotaWarning w ws) = ws ++ [w, w] := by
  refine ⟨?_, ?_, rfl, rfl, ?_⟩
  · cases h : checkAgentHealth thr agents now with
    | nil => simp [updateAlertsOnStatus, h]
    | cons x xs => simp [updateAlertsOnStatus, h]
  · exact List.mem_filterMap.mpr ⟨a, ha, by simp [agentAlertFor, he]⟩
  · simp [addQuotaWarning]

/-- Witness for `alerts_appended_without_dedup` at `errAgent` and a
concrete quota warning. -/
theorem alerts_appended_without_dedup_witness :
    updateAlertsOnStatus defaultThresholds [errAgent] 1000 []
      = [] ++ checkAgentHealth defaultThresholds [errAgent] 1000 ∧
    generateAlert errAgent AlertKind.error 1000
      ∈ checkAgentHealth defaultThresholds [errAgent] 1000 ∧
    (generateAlert errAgent AlertKind.error 1000).acknowledged = false ∧
    (generateAlert errAgent AlertKind.error 1000).id
      = "alert_" ++ errAgent.name ++ "_" ++ toString 1000 ∧
    addQuotaWarning demoQuotaWarning (addQuotaWarning demoQuotaWarning [])
      = [] ++ [demoQuotaWarning, demoQuotaWarning] :=
  alerts_appended_without_dedup defaultThresholds [errAgent] [] 1000
    demoQuotaWarning [] errAgent (List.mem_singleton.mpr rfl) rfl

/-- Claim C8: the trend of `calculateAnalytics` splits the recent-call
window at its midpoint and compares the two half counts — more than 10 %
above the first half is `increasing`, more than 10 % below is
`decreasing`, otherwise `stable` — exactly the integer-arithmetic rule
`trendOfCounts` applied to the lengths of the two halves. -/
theorem calculateTrend_matches_spec (calls : List UsageCallRecord) :
    calculateTrend calls
      = trendOfCounts (calls.take (calls.length / 2)).length
          (calls.drop (calls.length / 2)).length := by
  unfold calculateTrend
  exact trend_if_eq _ _

/-- Claim C9: with a snapshot present, the structured export is a pure
function of the snapshot alone (states agreeing on the snapshot export
identically), it is exactly the JSON encoding of the in-memory snapshot,
and parsing the export reproduces every snapshot field (round-trip). -/
theorem exportUsage_pure_roundtrip (st st2 : RealTimeUsageState)
    (u : UsageUpdateMessage) (h : st.usage = Option.some u)
    (h2 : st2.usage = st.usage) :
    exportUsageDataJson st2 = exportUsageDataJson st ∧
    exportUsageDataJson st = encodeUsage u ∧
    decodeUsage (exportUsageDataJson st) = Option.some u := by
  have he : exportUsageDataJson st = encodeUsage u := by
    simp [exportUsageDataJson, h]
  have he2 : exportUsageDataJson st2 = encodeUsage u := by
    simp [exportUsageDataJson, h2, h]
  refine ⟨he2.trans he.symm, he, ?_⟩
  rw [he]
  exact decodeUsage_encodeUsage u

/-- Witness for `exportUsage_pure_roundtrip` at the concrete snapshot
`demoUsage`, held by two states that differ in every other field. -/
theorem exportUsage_pure_roundtrip_witness :
    exportUsageDataJson demoUsageStateNoisy = exportUsageDataJson demoUsageState ∧
    exportUsageDataJson demoUsageState = encodeUsage demoUsage ∧
    decodeUsage (exportUsageDataJson demoUsageState) = Option.some demoUsage :=
  exportUsage_pure_roundtrip demoUsageState demoUsageStateNoisy demoUsage rfl rfl

/-- Claim C10: `getCollectiveMetrics` is total, and on the empty agent map
the guarded divisions make it return zero agents, zero average response
time and a 100 % success rate (with zero total calls and an empty load
distribution). -/
theorem getCollectiveMetrics_total_empty (healthScore : ℚ) :
    getCollectiveMetrics [] healthScore
      = { totalAgents := 0, activeAgents := 0, averageResponseTime := 0
          totalCalls := 0, successRate := 100, uptime := healthScore
          loadDistribution := [] } := by
  simp [getCollectiveMetrics]
